import Mathlib

/-!
Shallow embedding of the price-resolution pipeline of `src/main.rs`
(benzin-dashboard): the function `fetch_lenz_energie_station`, the
fallback applied in `dashboard`, and the price rendering classification.

Modelling conventions:
* A parsed JSON document (`serde_json::Value`) is the inductive `Value`
  below; JSON numbers are modelled as exact rationals (`Rat`), since the
  resolver only extracts them (`as_f64`), compares them with `> 0`, and
  formats them — it performs no float arithmetic.
* The upstream HTTP interaction (`send` + `.json()`, src/main.rs:40-41)
  is abstracted to an `Option Value` input: `none` models every
  transport-level failure (network error, timeout, unparsable body) and
  `some j` a successfully parsed JSON document `j`.
* Rust's `?` operator on `Option` is `Option.bind`; `unwrap_or` is
  `Option.getD`; string lowering is modelled per-character as the code
  only searches for the ASCII substring "lenz".
-/

namespace BenzinDashboard

/-- JSON values as produced by `serde_json`, with numbers as exact rationals. -/
inductive Value where
  | null : Value
  | bool : Bool → Value
  | num : Rat → Value
  | str : String → Value
  | arr : List Value → Value
  | obj : List (String × Value) → Value

/-- `Value::get(key)` on a JSON object: look the key up, `None` otherwise. -/
def Value.get (j : Value) (key : String) : Option Value :=
  match j with
  | .obj fields => (fields.find? (fun kv => kv.1 == key)).map (·.2)
  | _ => none

/-- `Value::as_bool`. -/
def Value.as_bool : Value → Option Bool
  | .bool b => some b
  | _ => none

/-- `Value::as_str`. -/
def Value.as_str : Value → Option String
  | .str s => some s
  | _ => none

/-- `Value::as_f64`: defined exactly on JSON numbers. -/
def Value.as_f64 : Value → Option Rat
  | .num q => some q
  | _ => none

/-- `Value::as_array`. -/
def Value.as_array : Value → Option (List Value)
  | .arr xs => some xs
  | _ => none

/-- Substring search on character lists: does `s` contain `pat` contiguously? -/
def listHasSub (pat : List Char) : List Char → Bool
  | [] => pat.isEmpty
  | c :: t => pat.isPrefixOf (c :: t) || listHasSub pat t

/-- Rust `str::contains` for string patterns. -/
def strContains (s pat : String) : Bool :=
  listHasSub pat.data s.data

/-- Rust `str::to_lowercase`, per character (the code only searches for
the ASCII word "lenz", where per-character lowering agrees with Unicode
lowercasing). -/
def strToLower (s : String) : String :=
  ⟨s.data.map Char.toLower⟩

/-- `PriceData` (src/main.rs:25-31): the normalized quote for the display. -/
structure PriceData where
  station_name : String
  e5 : Rat
  e10 : Rat
  diesel : Rat
  updated : String
deriving DecidableEq, Repr

/-- The station predicate of the `find` closure (src/main.rs:49-53):
name or brand, lowercased, contains "lenz"; missing or non-string
name/brand default to the empty string. -/
def stationMatches (s : Value) : Bool :=
  let name := ((s.get "name").bind Value.as_str).getD ""
  let brand := ((s.get "brand").bind Value.as_str).getD ""
  strContains (strToLower name) "lenz" || strContains (strToLower brand) "lenz"

/-- One numeric field extraction (src/main.rs:63-65):
`station.get(key).and_then(|v| v.as_f64()).unwrap_or(0.0)`. -/
def extractPrice (station : Value) (key : String) : Rat :=
  ((station.get key).bind Value.as_f64).getD 0

/-- The brand+name display label computed at src/main.rs:55-61 (`None`
when the `name` field is missing or not a string, since line 55 uses `?`). -/
def station_label_of (station : Value) : Option String :=
  ((station.get "name").bind Value.as_str).map fun name =>
    let brand := ((station.get "brand").bind Value.as_str).getD ""
    if brand.isEmpty then name else brand ++ " " ++ name

/-- `fetch_lenz_energie_station` (src/main.rs:35-74), over the parsed
response. `resp = none` models a failed `send`/`json` (lines 40-41); each
`Option.bind` is one `?`. The computed `station_name` of lines 55-61 is
bound but, exactly as in the source, not used in the returned record
(line 68 hardcodes the label). -/
def fetch_lenz_energie_station (resp : Option Value) : Option PriceData :=
  resp.bind fun json =>
  ((json.get "ok").bind Value.as_bool).bind fun ok =>
  if !ok then none else
  ((json.get "stations").bind Value.as_array).bind fun stations =>
  (stations.find? stationMatches).bind fun station =>
  ((station.get "name").bind Value.as_str).bind fun name =>
  let brand := ((station.get "brand").bind Value.as_str).getD ""
  let station_name := if brand.isEmpty then name else brand ++ " " ++ name
  let e5 := extractPrice station "e5"
  let e10 := extractPrice station "e10"
  let diesel := extractPrice station "diesel"
  some { station_name := "Lenz Energie — Lenz Energie AG"
         e5 := e5, e10 := e10, diesel := diesel
         updated := "Live" }

/-- `default_fallback` (src/main.rs:233-239). -/
def default_fallback : PriceData :=
  { station_name := "Lenz Energie — Lenz Energie AG"
    e5 := 0, e10 := 0, diesel := 0, updated := "–" }

/-- The data-resolution step of `dashboard` (src/main.rs:241-243):
`fetch_lenz_energie_station(..).unwrap_or(default_fallback)`. -/
def dashboardData (resp : Option Value) : PriceData :=
  (fetch_lenz_energie_station resp).getD default_fallback

/-- `format!("{:.2}", x)` for the price values, modelled as decimal
rounding to two places of the exact rational. -/
def formatPrice (x : Rat) : String :=
  let cents : Int := Rat.floor (x * 100 + 1/2)
  let euros := cents / 100
  let rem := (cents % 100).toNat
  toString euros ++ "." ++ (if rem < 10 then "0" else "") ++ toString rem

/-- The three price format arguments of the dashboard template, in
template order e10, e5, diesel (src/main.rs:373-387). -/
def renderedPrices (data : PriceData) : String × String × String :=
  ( if data.e10 > 0 then formatPrice data.e10 ++ " €" else "– €",
    if data.e5 > 0 then formatPrice data.e5 ++ " €" else "– €",
    if data.diesel > 0 then formatPrice data.diesel ++ " €" else "– €" )

/-! Concrete JSON fixtures used by witnesses and counterexamples. -/

/-- The first station of the spec's radius-search example. -/
def essoStation : Value :=
  .obj [("name", .str "Esso"), ("brand", .str "Esso"), ("e5", .num 1.8)]

/-- The second station of the spec's radius-search example. -/
def lenzStation : Value :=
  .obj [("name", .str "Lenz Energie"), ("brand", .str "Lenz"), ("e5", .num 1.7)]

/-- A successful radius-search response containing both example stations. -/
def exampleResp : Value :=
  .obj [("ok", .bool true), ("stations", .arr [essoStation, lenzStation])]

/-- A well-formed response whose stations array is empty. -/
def emptyStationsResp : Value :=
  .obj [("ok", .bool true), ("stations", .arr [])]

/-- A station matching on brand but with no "name" key, all three price
fields present and numeric. -/
def noNameStation : Value :=
  .obj [("brand", .str "Lenz"), ("e5", .num 1.7), ("e10", .num 1.6),
        ("diesel", .num 1.5)]

/-- A response whose only (and matching) station is `noNameStation`. -/
def noNameResp : Value :=
  .obj [("ok", .bool true), ("stations", .arr [noNameStation])]

/-- A matching station with string name and brand and all three prices. -/
def fullStation : Value :=
  .obj [("name", .str "Lenz Energie"), ("brand", .str "Lenz"),
        ("e5", .num 1.7), ("e10", .num 1.6), ("diesel", .num 1.5)]

/-- A response whose only station is `fullStation`. -/
def fullResp : Value :=
  .obj [("ok", .bool true), ("stations", .arr [fullStation])]

/-! ### Helper lemmas -/

/-- Forward computation: when the whole success chain of
`fetch_lenz_energie_station` is given, the result is the quote built from
the matched station. -/
theorem fetch_eq_of_chain (j : Value) (stations : List Value) (st : Value)
    (name : String)
    (hok : (j.get "ok").bind Value.as_bool = some true)
    (hs : (j.get "stations").bind Value.as_array = some stations)
    (hfind : stations.find? stationMatches = some st)
    (hname : (st.get "name").bind Value.as_str = some name) :
    fetch_lenz_energie_station (some j) =
      some { station_name := "Lenz Energie — Lenz Energie AG"
             e5 := extractPrice st "e5", e10 := extractPrice st "e10"
             diesel := extractPrice st "diesel", updated := "Live" } := by
  simp [fetch_lenz_energie_station, hok, hs, hfind, hname]

/-- Inversion: every successful fetch went through the whole chain, and its
result is the quote built from the matched station. -/
theorem fetch_some_inv (resp : Option Value) (q : PriceData)
    (h : fetch_lenz_energie_station resp = some q) :
    ∃ j stations st name,
      resp = some j ∧
      (j.get "ok").bind Value.as_bool = some true ∧
      (j.get "stations").bind Value.as_array = some stations ∧
      stations.find? stationMatches = some st ∧
      (st.get "name").bind Value.as_str = some name ∧
      q = { station_name := "Lenz Energie — Lenz Energie AG"
            e5 := extractPrice st "e5", e10 := extractPrice st "e10"
            diesel := extractPrice st "diesel", updated := "Live" } := by
  cases resp with
  | none => simp [fetch_lenz_energie_station] at h
  | some j =>
    rcases hok : (j.get "ok").bind Value.as_bool with _ | b
    · simp [fetch_lenz_energie_station, hok] at h
    · cases b with
      | false => simp [fetch_lenz_energie_station, hok] at h
      | true =>
        rcases hs : (j.get "stations").bind Value.as_array with _ | stations
        · simp [fetch_lenz_energie_station, hok, hs] at h
        · rcases hfind : stations.find? stationMatches with _ | st
          · simp [fetch_lenz_energie_station, hok, hs, hfind] at h
          · rcases hname : (st.get "name").bind Value.as_str with _ | name
            · simp [fetch_lenz_energie_station, hok, hs, hfind, hname] at h
            · refine ⟨j, stations, st, name, rfl, hok, hs, hfind, hname, ?_⟩
              simp [fetch_lenz_energie_station, hok, hs, hfind, hname] at h
              exact h.symm

/-! ### Claim theorems -/

/-- C1: resolution is total — for every upstream outcome (`none` models
network error, timeout, non-2xx with unparsable body, or garbage JSON;
`some j` any parsed document, including valid JSON of the wrong shape) the
dashboard step returns a `PriceData`; on failure it is the zero-filled
quote with station label "Lenz Energie — Lenz Energie AG" and freshness
label "–"; on success it is the fetched quote; and an explicit or absent
"ok" flag that is not `true` makes the fetch fail. -/
theorem c1_resolution_total (resp : Option Value) :
    (fetch_lenz_energie_station resp = none →
      dashboardData resp = default_fallback ∧
      (dashboardData resp).station_name = "Lenz Energie — Lenz Energie AG" ∧
      (dashboardData resp).e5 = 0 ∧ (dashboardData resp).e10 = 0 ∧
      (dashboardData resp).diesel = 0 ∧ (dashboardData resp).updated = "–") ∧
    (∀ q, fetch_lenz_energie_station resp = some q → dashboardData resp = q) ∧
    (∀ j, resp = some j → (j.get "ok").bind Value.as_bool ≠ some true →
      fetch_lenz_energie_station resp = none) := by
  refine ⟨fun h => ?_, fun q hq => ?_, fun j hj hne => ?_⟩
  · have hd : dashboardData resp = default_fallback := by simp [dashboardData, h]
    exact ⟨hd, by rw [hd]; rfl, by rw [hd]; rfl, by rw [hd]; rfl,
      by rw [hd]; rfl, by rw [hd]; rfl⟩
  · simp [dashboardData, hq]
  · subst hj
    rcases hok : (j.get "ok").bind Value.as_bool with _ | b
    · simp [fetch_lenz_energie_station, hok]
    · cases b with
      | false => simp [fetch_lenz_energie_station, hok]
      | true => exact absurd hok hne

/-- C1 witness: at the failed-transport input `none` the fallback is
returned, and with an explicit "ok":false the fetch fails. -/
theorem c1_resolution_total_witness :
    dashboardData none = default_fallback ∧
    fetch_lenz_energie_station (some (Value.obj [("ok", Value.bool false)])) =
      none :=
  ⟨((c1_resolution_total none).1 rfl).1,
   (c1_resolution_total (some (Value.obj [("ok", Value.bool false)]))).2.2 _
     rfl (by decide)⟩

/-- C2: station selection picks the first station in list order satisfying
the case-insensitive "lenz" substring match on name or brand, and on the
spec's two-station example list it picks the second entry. -/
theorem c2_station_selection :
    (∀ (pre : List Value) (s : Value) (post : List Value),
      stationMatches s = true →
      (∀ t ∈ pre, stationMatches t = false) →
      (pre ++ s :: post).find? stationMatches = some s) ∧
    [essoStation, lenzStation].find? stationMatches = some lenzStation := by
  constructor
  · intro pre s post hs hpre
    induction pre with
    | nil => simp [List.find?, hs]
    | cons t ts ih =>
      have ht : stationMatches t = false := hpre t (by simp)
      simpa [List.find?, ht] using ih fun u hu => hpre u (by simp [hu])
  · rfl

/-- C2 witness: instantiating the general statement on the spec's example
list selects the Lenz entry. -/
theorem c2_station_selection_witness :
    ([essoStation] ++ lenzStation :: []).find? stationMatches =
      some lenzStation :=
  c2_station_selection.1 [essoStation] lenzStation [] (by decide) (by decide)

/-- C3: each price field is extracted independently — a missing key or a
non-numeric value yields 0, a numeric value is returned exactly, the
extraction of a key depends only on that key's lookup, and every
successful fetch carries the three independent extractions of the matched
station. -/
theorem c3_field_extraction :
    (∀ (st : Value) (key : String), st.get key = none →
      extractPrice st key = 0) ∧
    (∀ (st : Value) (key : String) (v : Value), st.get key = some v →
      v.as_f64 = none → extractPrice st key = 0) ∧
    (∀ (st : Value) (key : String) (q : Rat),
      st.get key = some (Value.num q) → extractPrice st key = q) ∧
    (∀ (st₁ st₂ : Value) (key : String), st₁.get key = st₂.get key →
      extractPrice st₁ key = extractPrice st₂ key) ∧
    (∀ (resp : Option Value) (q : PriceData),
      fetch_lenz_energie_station resp = some q →
      ∃ st, q.e5 = extractPrice st "e5" ∧ q.e10 = extractPrice st "e10" ∧
            q.diesel = extractPrice st "diesel") := by
  refine ⟨fun st key h => ?_, fun st key v h hv => ?_, fun st key q h => ?_,
    fun st₁ st₂ key h => ?_, fun resp q h => ?_⟩
  · simp [extractPrice, h]
  · simp [extractPrice, h, hv]
  · simp [extractPrice, h, Value.as_f64]
  · simp [extractPrice, h]
  · obtain ⟨j, stations, st, name, _, _, _, _, _, hq⟩ := fetch_some_inv resp q h
    exact ⟨st, by rw [hq], by rw [hq], by rw [hq]⟩

/-- C3 witness: on a station whose "e5" is absent and on one whose "e5" is
a string, e5 extracts to 0 while e10 still extracts to its value 2. -/
theorem c3_field_extraction_witness :
    extractPrice (Value.obj [("e10", Value.num 2)]) "e5" = 0 ∧
    extractPrice (Value.obj [("e5", Value.str "oops"), ("e10", Value.num 2)])
      "e5" = 0 ∧
    extractPrice (Value.obj [("e5", Value.str "oops"), ("e10", Value.num 2)])
      "e10" = 2 :=
  ⟨c3_field_extraction.1 _ "e5" rfl,
   c3_field_extraction.2.1 _ "e5" _ rfl rfl,
   c3_field_extraction.2.2.1 _ "e10" 2 rfl⟩

/-- C4 counterexample: a response with "ok":true whose only station matches
(brand "Lenz") and carries numeric e5/e10/diesel, but has no "name" key.
The claim as stated requires the quote to carry the station's prices with
freshness "Live"; the code instead fails the whole fetch (line 55 uses `?`
on "name") and the fallback with freshness "–" is returned. -/
theorem c4_counterexample :
    (noNameResp.get "ok").bind Value.as_bool = some true ∧
    (noNameResp.get "stations").bind Value.as_array = some [noNameStation] ∧
    [noNameStation].find? stationMatches = some noNameStation ∧
    noNameStation.get "e5" = some (Value.num 1.7) ∧
    noNameStation.get "e10" = some (Value.num 1.6) ∧
    noNameStation.get "diesel" = some (Value.num 1.5) ∧
    dashboardData (some noNameResp) = default_fallback ∧
    (dashboardData (some noNameResp)).updated ≠ "Live" :=
  ⟨rfl, rfl, rfl, rfl, rfl, rfl, rfl, by decide⟩

/-- C4 (amended): on a successful radius-search match whose matched station
additionally has a string "name" field, the returned quote carries that
station's numeric e5/e10/diesel and the freshness label "Live". -/
theorem c4_match_with_name_gives_live (j : Value) (stations : List Value)
    (st : Value) (name : String) (a b c : Rat)
    (hok : (j.get "ok").bind Value.as_bool = some true)
    (hs : (j.get "stations").bind Value.as_array = some stations)
    (hfind : stations.find? stationMatches = some st)
    (hname : (st.get "name").bind Value.as_str = some name)
    (he5 : st.get "e5" = some (Value.num a))
    (he10 : st.get "e10" = some (Value.num b))
    (hdiesel : st.get "diesel" = some (Value.num c)) :
    dashboardData (some j) =
      { station_name := "Lenz Energie — Lenz Energie AG"
        e5 := a, e10 := b, diesel := c, updated := "Live" } := by
  have hf := fetch_eq_of_chain j stations st name hok hs hfind hname
  simp [dashboardData, hf, extractPrice, he5, he10, hdiesel, Value.as_f64]

/-- C4 witness: a complete matching station yields its three prices and
the "Live" label. -/
theorem c4_match_with_name_gives_live_witness :
    dashboardData (some fullResp) =
      { station_name := "Lenz Energie — Lenz Energie AG"
        e5 := 1.7, e10 := 1.6, diesel := 1.5, updated := "Live" } :=
  c4_match_with_name_gives_live fullResp [fullStation] fullStation
    "Lenz Energie" 1.7 1.6 1.5 rfl rfl rfl rfl rfl rfl rfl

/-- C5 counterexample: on a well-formed response with an empty stations
array the code returns the zero-filled fallback with freshness "–"
directly — there is no nationwide-average source in this program whose
date string could become the freshness label (in particular it is not the
spec's example date). -/
theorem c5_counterexample :
    (emptyStationsResp.get "ok").bind Value.as_bool = some true ∧
    (emptyStationsResp.get "stations").bind Value.as_array = some [] ∧
    dashboardData (some emptyStationsResp) = default_fallback ∧
    (dashboardData (some emptyStationsResp)).updated = "–" ∧
    "–" ≠ "2026-02-20 18:50:01" :=
  ⟨rfl, rfl, rfl, rfl, by decide⟩

/-- C5 (amended): when the radius search fails to produce a matching
station — the stations array is empty, or no entry satisfies the "lenz"
match — resolution falls directly to the zero-filled placeholder quote
with freshness label "–" (no nationwide-average source exists in this
code). -/
theorem c5_no_matching_station_placeholder :
    (∀ (j : Value) (stations : List Value),
      (j.get "stations").bind Value.as_array = some stations →
      stations.find? stationMatches = none →
      dashboardData (some j) = default_fallback) ∧
    (∀ j : Value, (j.get "stations").bind Value.as_array = some [] →
      dashboardData (some j) = default_fallback) := by
  have general : ∀ (j : Value) (stations : List Value),
      (j.get "stations").bind Value.as_array = some stations →
      stations.find? stationMatches = none →
      dashboardData (some j) = default_fallback := by
    intro j stations hs hnone
    rcases hok : (j.get "ok").bind Value.as_bool with _ | b
    · simp [dashboardData, fetch_lenz_energie_station, hok]
    · cases b with
      | false => simp [dashboardData, fetch_lenz_energie_station, hok]
      | true =>
        simp [dashboardData, fetch_lenz_energie_station, hok, hs, hnone]
  exact ⟨general, fun j hs => general j [] hs rfl⟩

/-- C5 witness: the empty-stations fixture and a non-empty fixture whose
only station (Esso) does not match both resolve to the placeholder. -/
theorem c5_no_matching_station_placeholder_witness :
    dashboardData (some emptyStationsResp) = default_fallback ∧
    dashboardData
      (some (Value.obj [("ok", Value.bool true),
                        ("stations", Value.arr [essoStation])])) =
      default_fallback :=
  ⟨c5_no_matching_station_placeholder.2 emptyStationsResp rfl,
   c5_no_matching_station_placeholder.1 _ [essoStation] rfl rfl⟩

/-- C6 counterexample: a successful resolution whose matched station has
name "Lenz Energie" and brand "Lenz". The brand+name label of lines 55-61
is "Lenz Lenz Energie", yet the returned quote's station label is the
hardcoded constant, which differs — the computed label is discarded. -/
theorem c6_counterexample :
    (fetch_lenz_energie_station (some fullResp)).isSome = true ∧
    station_label_of fullStation = some "Lenz Lenz Energie" ∧
    (dashboardData (some fullResp)).station_name =
      "Lenz Energie — Lenz Energie AG" ∧
    "Lenz Energie — Lenz Energie AG" ≠ "Lenz Lenz Energie" :=
  ⟨rfl, rfl, rfl, by decide⟩

/-- C6 (amended): the station label of every successfully resolved quote is
the constant "Lenz Energie — Lenz Energie AG"; the brand+name label is
computed but never used. -/
theorem c6_label_constant (resp : Option Value) (q : PriceData)
    (h : fetch_lenz_energie_station resp = some q) :
    q.station_name = "Lenz Energie — Lenz Energie AG" := by
  obtain ⟨j, stations, st, name, _, _, _, _, _, hq⟩ := fetch_some_inv resp q h
  rw [hq]

/-- C6 witness: the constant label on the concrete successful fixture. -/
theorem c6_label_constant_witness :
    ({ station_name := "Lenz Energie — Lenz Energie AG"
       e5 := 1.7, e10 := 1.6, diesel := 1.5
       updated := "Live" } : PriceData).station_name =
      "Lenz Energie — Lenz Energie AG" :=
  c6_label_constant (some fullResp) _ rfl

/-- C7: the resolver is deterministic — two runs against identical upstream
responses produce identical fetch results and identical dashboard quotes
in every field (both functions depend on nothing but the response). -/
theorem c7_deterministic (r₁ r₂ : Option Value) (h : r₁ = r₂) :
    fetch_lenz_energie_station r₁ = fetch_lenz_energie_station r₂ ∧
    dashboardData r₁ = dashboardData r₂ := by
  subst h; exact ⟨rfl, rfl⟩

/-- C7 witness: two runs on the concrete example response agree. -/
theorem c7_deterministic_witness :
    dashboardData (some exampleResp) = dashboardData (some exampleResp) :=
  (c7_deterministic (some exampleResp) (some exampleResp) rfl).2

/-- C8: the rendering boundary classifies each price field by the single
predicate "> 0" — for every quote, a field strictly greater than 0 renders
as the formatted value and a field equal to 0 (or any non-positive field,
the else branch of the same predicate) renders as the placeholder "– €",
in each of the three template slots (e10, e5, diesel). -/
theorem c8_render_classification (d : PriceData) :
    (0 < d.e10 → (renderedPrices d).1 = formatPrice d.e10 ++ " €") ∧
    (d.e10 = 0 → (renderedPrices d).1 = "– €") ∧
    (¬ 0 < d.e10 → (renderedPrices d).1 = "– €") ∧
    (0 < d.e5 → (renderedPrices d).2.1 = formatPrice d.e5 ++ " €") ∧
    (d.e5 = 0 → (renderedPrices d).2.1 = "– €") ∧
    (¬ 0 < d.e5 → (renderedPrices d).2.1 = "– €") ∧
    (0 < d.diesel → (renderedPrices d).2.2 = formatPrice d.diesel ++ " €") ∧
    (d.diesel = 0 → (renderedPrices d).2.2 = "– €") ∧
    (¬ 0 < d.diesel → (renderedPrices d).2.2 = "– €") := by
  unfold renderedPrices
  refine ⟨fun h => ?_, fun h => ?_, fun h => ?_, fun h => ?_, fun h => ?_,
    fun h => ?_, fun h => ?_, fun h => ?_, fun h => ?_⟩ <;>
    simp [h, lt_irrefl]

/-- C8 witness: a quote with e5 = 2, e10 = 3, diesel = 0 renders the two
positive fields as formatted values and the sentinel field as "– €". -/
theorem c8_render_classification_witness :
    (renderedPrices { station_name := "x", e5 := 2, e10 := 3, diesel := 0
                      updated := "Live" }).1 = formatPrice 3 ++ " €" ∧
    (renderedPrices { station_name := "x", e5 := 2, e10 := 3, diesel := 0
                      updated := "Live" }).2.1 = formatPrice 2 ++ " €" ∧
    (renderedPrices { station_name := "x", e5 := 2, e10 := 3, diesel := 0
                      updated := "Live" }).2.2 = "– €" :=
  ⟨(c8_render_classification _).1 (by decide),
   (c8_render_classification _).2.2.2.1 (by decide),
   (c8_render_classification _).2.2.2.2.2.2.2.1 rfl⟩

/-- C9: if the matched station's "name" field is missing or not a string,
the entire resolution attempt fails and the zero-filled placeholder is
returned — regardless of the station's price fields. -/
theorem c9_missing_name_aborts (j : Value) (stations : List Value)
    (st : Value)
    (hok : (j.get "ok").bind Value.as_bool = some true)
    (hs : (j.get "stations").bind Value.as_array = some stations)
    (hfind : stations.find? stationMatches = some st)
    (hname : (st.get "name").bind Value.as_str = none) :
    fetch_lenz_energie_station (some j) = none ∧
    dashboardData (some j) = default_fallback := by
  have hf : fetch_lenz_energie_station (some j) = none := by
    simp [fetch_lenz_energie_station, hok, hs, hfind, hname]
  exact ⟨hf, by simp [dashboardData, hf]⟩

/-- C9 witness: the no-name fixture has all three prices present and
numeric, yet resolution returns the placeholder. -/
theorem c9_missing_name_aborts_witness :
    noNameStation.get "e5" = some (Value.num 1.7) ∧
    noNameStation.get "e10" = some (Value.num 1.6) ∧
    noNameStation.get "diesel" = some (Value.num 1.5) ∧
    dashboardData (some noNameResp) = default_fallback :=
  ⟨rfl, rfl, rfl,
   (c9_missing_name_aborts noNameResp [noNameStation] noNameStation
     rfl rfl rfl rfl).2⟩

/-- C10: every quote the resolution step can return has the constant
station label "Lenz Energie — Lenz Energie AG", and its freshness label is
one of the two strings "Live" and "–", whatever the upstream response. -/
theorem c10_quote_invariant (resp : Option Value) :
    (dashboardData resp).station_name = "Lenz Energie — Lenz Energie AG" ∧
    ((dashboardData resp).updated = "Live" ∨
      (dashboardData resp).updated = "–") := by
  rcases h : fetch_lenz_energie_station resp with _ | q
  · simp [dashboardData, h, default_fallback]
  · obtain ⟨j, stations, st, name, _, _, _, _, _, hq⟩ := fetch_some_inv resp q h
    simp [dashboardData, h, hq]

end BenzinDashboard
